import Mathlib

/-!
Shallow embedding of `src/scripts/train.py` (mcw-mlops-starter), a linear
Azure ML training script: dataset provisioning, text preprocessing,
train/validation/test splitting, GloVe embedding-matrix construction,
model assembly and registration.  Pure fragments of the script become Lean
functions; library calls whose code is not in the repository are modelled
from the specification where noted.  GloVe vector components are modelled
as rationals instead of float32, which is irrelevant to the shape and
zero-row properties proved here.
-/

/-- Internal variable from train.py line 64: `embedding_dim = 100`. -/
def embedding_dim : Nat := 100

/-- Internal variable from train.py line 65: `training_samples = 90000`. -/
def training_samples : Nat := 90000

/-- Internal variable from train.py line 66: `validation_samples = 5000`. -/
def validation_samples : Nat := 5000

/-- Internal variable from train.py line 67: `max_words = 10000`. -/
def max_words : Nat := 10000

/-- Fixed source URL for the GloVe vectors, train.py lines 49-51. -/
def glove_url : String :=
  "https://quickstartsws9073123377.blob.core.windows.net/azureml-blobstore-0d1c4218-a5f9-418b-bf55-902b65277b85/quickstarts/connected-car-data/glove.6B.100d.txt"

/-- Dataset name for the GloVe embeddings, train.py line 53. -/
def glove_ds_name : String := "glove_6B_100d"

/-- Dataset description for the GloVe embeddings, train.py line 54. -/
def glove_ds_description : String := "GloVe embeddings 6B 100d"

/-- Dataset name for the car components data, train.py line 61. -/
def cardata_ds_name : String := "connected_car_components"

/-- Dataset description for the car components data, train.py line 62. -/
def cardata_ds_description : String := "Connected car components data"

/-- Failure classes that `Dataset.get_by_name` (train.py line 83) can raise.
`datasetNotFound` is the class the spec says is the only one caught;
the others stand for the remaining failure classes (network, auth, ...). -/
inductive LookupError where
  | datasetNotFound
  | serviceError
  | invalidAuth
deriving DecidableEq

/-- Observable outcome of the GloVe provisioning block, train.py lines 82-89.
`propagate` is the outcome the claim predicts for non-not-found errors:
the exception leaves the block unhandled and terminates the process. -/
inductive GloveOutcome where
  | useExisting
  | registerFallback (url name description : String)
  | propagate (e : LookupError)
deriving DecidableEq

/-- train.py lines 82-89: `try: glove_ds = Dataset.get_by_name(...)` followed by
a BARE `except:` clause whose body downloads from `glove_url` and registers
under `glove_ds_name`.  A bare `except:` matches every exception class, so
every lookup failure takes the fallback branch. -/
def processGloveLookup : Except LookupError Unit → GloveOutcome
  | Except.ok _ => GloveOutcome.useExisting
  | Except.error _ =>
      GloveOutcome.registerFallback glove_url glove_ds_name glove_ds_description

/-- train.py lines 91-92: `file_paths = glove_ds.download(...)` then
`glove_file_path = file_paths[0]`.  Python indexing raises IndexError on an
empty list, so the embedding returns `Except`. -/
def glove_file_path (file_paths : List String) : Except String String :=
  match file_paths with
  | [] => Except.error "list index out of range"
  | p :: _ => Except.ok p

/-- A dataset version recorded in the workspace registry: name, description,
tags and a version number. -/
structure DatasetEntry where
  name : String
  description : String
  tags : List (String × String)
  version : Nat
deriving DecidableEq

/-- Modelled from the spec: the Azure ML `Dataset.register` call (not code of
this repository) — "always register a fresh version" — each call appends a
new entry whose version number is one more than the number of entries
already registered under that name. -/
def registerDataset (r : List DatasetEntry) (name desc : String)
    (tags : List (String × String)) : List DatasetEntry :=
  DatasetEntry.mk name desc tags
    ((r.filter (fun e => e.name == name)).length + 1) :: r

/-- train.py lines 107-108: `cardata_ds.register(workspace=ws, name=..., description=...,
tags={"build_number": args.build_number})`, executed unconditionally on every run. -/
def registerCarData (r : List DatasetEntry) (build_number : String) : List DatasetEntry :=
  registerDataset r cardata_ds_name cardata_ds_description
    [("build_number", build_number)]

/-- Number of occurrences of token `w` in the token stream `toks`. -/
def countTok (toks : List String) (w : String) : Nat :=
  (toks.filter (fun t => t == w)).length

/-- Modelled from the spec: the Keras `Tokenizer` vocabulary construction
(train.py lines 125-129 call library code that is not in the repository).
Spec 4.2: "produce (a) a token-to-index mapping limited to the most frequent
tokens up to the cap"; spec 3: "Order of assignment follows token frequency".
Each record is a list of tokens; the mapping keeps at most `num_words`
distinct tokens, ordered by descending frequency, indexed from 1 (Keras
reserves index 0 for padding). -/
def fitWordIndex (corpus : List (List String)) (num_words : Nat) :
    List (String × Nat) :=
  let toks := corpus.flatten
  let uniq := toks.dedup
  let sorted := uniq.mergeSort (fun a b => countTok toks b ≤ countTok toks a)
  (sorted.take num_words).enum.map (fun p => (p.2, p.1 + 1))

/-- Modelled from the spec: Keras `pad_sequences` on one sequence (train.py
line 132 calls library code that is not in the repository).  Spec 3:
"fixed-width (100) integer-encoded representation of each input text;
shorter sequences zero-padded, longer ones truncated". -/
def padSequence (maxlen : Nat) (s : List Nat) : List Nat :=
  if maxlen ≤ s.length then s.drop (s.length - maxlen)
  else List.replicate (maxlen - s.length) 0 ++ s

/-- train.py line 132: `data = pad_sequences(sequences, maxlen=embedding_dim)`:
every sequence is padded/truncated to the same fixed length. -/
def pad_sequences (seqs : List (List Nat)) (maxlen : Nat) : List (List Nat) :=
  seqs.map (padSequence maxlen)

/-- train.py lines 147-148: numpy fancy indexing `data[indices]` — gather the
element at each index in turn.  On the shuffled `np.arange` permutation every
index is in range; `filterMap` makes the gather total. -/
def applyPerm (indices : List Nat) (l : List α) : List α :=
  indices.filterMap (fun i => l[i]?)

/-- train.py line 150: `x_train = data[:training_samples]`. -/
def x_train (data : List α) : List α :=
  data.take training_samples

/-- train.py line 153: `x_val = data[training_samples: training_samples + validation_samples]`. -/
def x_val (data : List α) : List α :=
  (data.drop training_samples).take validation_samples

/-- train.py line 156: `x_test = data[training_samples + validation_samples:]`. -/
def x_test (data : List α) : List α :=
  data.drop (training_samples + validation_samples)

/-- train.py lines 178-183:
`embedding_matrix = np.zeros((max_words, embedding_dim))` followed by the loop
`for word, i in word_index.items(): if i < max_words: v = embeddings_index.get(word); if v is not None: embedding_matrix[i] = v`.
`word_index` is the token-to-index association list, `embeddings_index` the
GloVe map from token to vector. -/
def embedStep (embeddings_index : String → Option (List ℚ))
    (m : List (List ℚ)) (p : String × Nat) : List (List ℚ) :=
  if p.2 < max_words then
    match embeddings_index p.1 with
    | some v => m.set p.2 v
    | none => m
  else m

/-- train.py lines 178-183 continued: fold the loop body over the whole
`word_index` association list, starting from the all-zero matrix. -/
def buildEmbeddingMatrix (word_index : List (String × Nat))
    (embeddings_index : String → Option (List ℚ)) : List (List ℚ) :=
  word_index.foldl (embedStep embeddings_index)
    (List.replicate max_words (List.replicate embedding_dim 0))

/-- Activation functions appearing in train.py lines 198-200. -/
inductive Activation where
  | relu
  | sigmoid
deriving DecidableEq

/-- Keras layers used by the script, train.py lines 196-200. -/
inductive Layer where
  | embedding (inputDim outputDim inputLength : Nat)
  | flatten
  | dense (units : Nat) (activation : Activation)
deriving DecidableEq

/-- State of the Sequential model as the script observes it before `fit`:
the layer stack, the weights assigned to layer 0, and layer 0's trainable
flag (Keras layers default to trainable). -/
structure SeqModel where
  layers : List Layer
  layer0Weights : Option (List (List ℚ))
  layer0Trainable : Bool
deriving DecidableEq

/-- `model.add(layer)`: append a layer to the stack. -/
def addLayer (m : SeqModel) (l : Layer) : SeqModel :=
  SeqModel.mk (m.layers ++ [l]) m.layer0Weights m.layer0Trainable

/-- train.py line 204: `model.layers[0].set_weights([embedding_matrix])`. -/
def setLayer0Weights (m : SeqModel) (w : List (List ℚ)) : SeqModel :=
  SeqModel.mk m.layers (some w) m.layer0Trainable

/-- train.py line 205: `model.layers[0].trainable = False`. -/
def setLayer0Trainable (m : SeqModel) (b : Bool) : SeqModel :=
  SeqModel.mk m.layers m.layer0Weights b

/-- train.py lines 195-205: build `Sequential()`, add the five layers, then
freeze layer 0 on the pretrained embedding matrix. -/
def buildModel (embedding_matrix : List (List ℚ)) : SeqModel :=
  let m := SeqModel.mk [] none true
  let m := addLayer m (Layer.embedding max_words embedding_dim embedding_dim)
  let m := addLayer m Layer.flatten
  let m := addLayer m (Layer.dense 64 Activation.relu)
  let m := addLayer m (Layer.dense 32 Activation.relu)
  let m := addLayer m (Layer.dense 1 Activation.sigmoid)
  let m := setLayer0Weights m embedding_matrix
  setLayer0Trainable m false

/-- Every padded sequence has length exactly `maxlen`. -/
lemma padSequence_length (maxlen : Nat) (s : List Nat) :
    (padSequence maxlen s).length = maxlen := by
  unfold padSequence
  split
  all_goals simp
  all_goals omega

/-- Claim C1: for every input corpus, the token-to-index vocabulary mapping
produced by the Text Preprocessor contains at most `max_words` (10000)
entries. -/
theorem vocab_size_at_most_max_words (corpus : List (List String)) :
    (fitWordIndex corpus max_words).length ≤ max_words := by
  simp [fitWordIndex]

/-- Claim C5: every padded integer sequence produced by the Text Preprocessor
has exactly the configured fixed length `embedding_dim` (100). -/
theorem padded_sequences_fixed_length (seqs : List (List Nat)) :
    ∀ p ∈ pad_sequences seqs embedding_dim, p.length = embedding_dim := by
  intro p hp
  simp only [pad_sequences, List.mem_map] at hp
  obtain ⟨s, _, rfl⟩ := hp
  exact padSequence_length embedding_dim s

/-- Witness for C5 at a concrete two-element sequence. -/
theorem padded_sequences_fixed_length_witness :
    (padSequence embedding_dim [5, 6]).length = embedding_dim :=
  padded_sequences_fixed_length [[5, 6]] (padSequence embedding_dim [5, 6])
    (by simp [pad_sequences])

/-- Claim C4: the three contiguous slices partition the records — their sizes
sum to the record count — and when the record count is at least
`training_samples + validation_samples` (95000) the train and validation
slices have exactly their configured sizes. -/
theorem split_sizes (data : List α) :
    (x_train data).length + (x_val data).length + (x_test data).length
      = data.length ∧
    (training_samples + validation_samples ≤ data.length →
      (x_train data).length = training_samples ∧
      (x_val data).length = validation_samples) := by
  constructor
  · simp only [x_train, x_val, x_test, List.length_take, List.length_drop,
      training_samples, validation_samples]
    omega
  · intro h
    simp only [training_samples, validation_samples] at h
    simp only [x_train, x_val, List.length_take, List.length_drop,
      training_samples, validation_samples]
    omega

/-- Witness for C4 at a 95000-record dataset. -/
theorem split_sizes_witness :
    (x_train (List.replicate 95000 (0 : Nat))).length = training_samples ∧
    (x_val (List.replicate 95000 (0 : Nat))).length = validation_samples :=
  (split_sizes (List.replicate 95000 (0 : Nat))).2
    (by simp only [training_samples, validation_samples,
      List.length_replicate]; omega)

/-- Claim C7: the assembled classifier always has the fixed topology
embedding → flatten → dense(64, relu) → dense(32, relu) → dense(1, sigmoid),
and before training layer 0's weights equal the pretrained embedding matrix
and layer 0 is marked non-trainable. -/
theorem model_topology_and_frozen_embedding (em : List (List ℚ)) :
    (buildModel em).layers =
      [Layer.embedding max_words embedding_dim embedding_dim,
       Layer.flatten,
       Layer.dense 64 Activation.relu,
       Layer.dense 32 Activation.relu,
       Layer.dense 1 Activation.sigmoid] ∧
    (buildModel em).layer0Weights = some em ∧
    (buildModel em).layer0Trainable = false :=
  ⟨rfl, rfl, rfl⟩

/-- Claim C10: the script indexes the first element of the downloaded
file-path list with no guard: when the list is nonempty the access yields its
head, and on the empty list the operation fails. -/
theorem glove_file_path_first_element (file_paths : List String) :
    (0 < file_paths.length →
      glove_file_path file_paths = Except.ok (file_paths.headD "")) ∧
    (file_paths.length = 0 →
      glove_file_path file_paths = Except.error "list index out of range") := by
  cases file_paths <;> simp [glove_file_path]

/-- Witness for C10: a singleton download succeeds on its head, the empty
download fails. -/
theorem glove_file_path_first_element_witness :
    glove_file_path ["a"] = Except.ok "a" ∧
    glove_file_path [] = Except.error "list index out of range" :=
  ⟨(glove_file_path_first_element ["a"]).1 (by decide),
   (glove_file_path_first_element []).2 rfl⟩

/-- Counterexample to C2: the `except:` clause on train.py line 85 is bare, so
a lookup failure of a class other than dataset-not-found (here a service
error) is also caught and triggers the registration fallback instead of
propagating unhandled. -/
theorem bare_except_counterexample :
    processGloveLookup (Except.error LookupError.serviceError)
      = GloveOutcome.registerFallback glove_url glove_ds_name
          glove_ds_description ∧
    processGloveLookup (Except.error LookupError.serviceError)
      ≠ GloveOutcome.propagate LookupError.serviceError :=
  ⟨rfl, by simp [processGloveLookup]⟩

/-- Claim C2 as amended: the bare `except:` catches EVERY failure class during
the embeddings lookup — each one triggers the registration fallback (download
from the fixed URL, register under the fixed name) — and no lookup failure
propagates; a successful lookup uses the registered dataset. -/
theorem glove_lookup_catch_all (e : LookupError) :
    processGloveLookup (Except.error e)
      = GloveOutcome.registerFallback glove_url glove_ds_name
          glove_ds_description ∧
    (∀ e2 : LookupError,
      processGloveLookup (Except.error e) ≠ GloveOutcome.propagate e2) ∧
    processGloveLookup (Except.ok ()) = GloveOutcome.useExisting :=
  ⟨rfl, fun e2 => by simp [processGloveLookup], rfl⟩

/-- Claim C8: on every run, whatever the registry state, the car-components
dataset is registered anew tagged with the run's build number; two successive
runs with different build numbers yield two distinct registered versions,
each tagged with its own build number. -/
theorem cardata_register_every_run (r : List DatasetEntry) (b1 b2 : String)
    (_hne : b1 ≠ b2) :
    ∃ e1 e2,
      e1 ∈ registerCarData (registerCarData r b1) b2 ∧
      e2 ∈ registerCarData (registerCarData r b1) b2 ∧
      e1.name = cardata_ds_name ∧ e2.name = cardata_ds_name ∧
      e1.tags = [("build_number", b1)] ∧ e2.tags = [("build_number", b2)] ∧
      e1.version ≠ e2.version ∧ e1 ≠ e2 := by
  refine ⟨DatasetEntry.mk cardata_ds_name cardata_ds_description
      [("build_number", b1)]
      ((r.filter (fun e => e.name == cardata_ds_name)).length + 1),
    DatasetEntry.mk cardata_ds_name cardata_ds_description
      [("build_number", b2)]
      ((r.filter (fun e => e.name == cardata_ds_name)).length + 2),
    ?_, ?_, rfl, rfl, rfl, rfl, by simp, ?_⟩
  · simp [registerCarData, registerDataset]
  · simp [registerCarData, registerDataset]
  · intro h
    exact absurd (congrArg DatasetEntry.version h) (by simp)

/-- Witness for C8 on the empty registry with build numbers "1" and "2". -/
theorem cardata_register_every_run_witness :
    ∃ e1 e2,
      e1 ∈ registerCarData (registerCarData [] "1") "2" ∧
      e2 ∈ registerCarData (registerCarData [] "1") "2" ∧
      e1.name = cardata_ds_name ∧ e2.name = cardata_ds_name ∧
      e1.tags = [("build_number", "1")] ∧ e2.tags = [("build_number", "2")] ∧
      e1.version ≠ e2.version ∧ e1 ≠ e2 :=
  cardata_register_every_run [] "1" "2" (by decide)

/-- One loop iteration never changes the number of matrix rows. -/
lemma embedStep_length (emb : String → Option (List ℚ))
    (m : List (List ℚ)) (p : String × Nat) :
    (embedStep emb m p).length = m.length := by
  unfold embedStep
  split
  · cases emb p.1 <;> simp
  · rfl

/-- The whole loop never changes the number of matrix rows. -/
lemma foldl_embedStep_length (emb : String → Option (List ℚ))
    (l : List (String × Nat)) (m : List (List ℚ)) :
    (l.foldl (embedStep emb) m).length = m.length := by
  induction l generalizing m with
  | nil => rfl
  | cons p l ih => rw [List.foldl_cons, ih, embedStep_length]

/-- One loop iteration keeps every row at width `d` as long as every vector in
the embeddings index has width `d`. -/
lemma embedStep_rows (emb : String → Option (List ℚ))
    (m : List (List ℚ)) (p : String × Nat) (d : Nat)
    (hm : ∀ r ∈ m, r.length = d)
    (hp : ∀ v, emb p.1 = some v → v.length = d) :
    ∀ r ∈ embedStep emb m p, r.length = d := by
  unfold embedStep
  split
  · cases h : emb p.1 with
    | none => exact hm
    | some v =>
        intro r hr
        rcases List.mem_or_eq_of_mem_set hr with h1 | rfl
        · exact hm r h1
        · exact hp r h
  · exact hm

/-- The whole loop keeps every row at width `d`. -/
lemma foldl_embedStep_rows (emb : String → Option (List ℚ))
    (l : List (String × Nat)) (m : List (List ℚ)) (d : Nat)
    (hm : ∀ r ∈ m, r.length = d)
    (hl : ∀ p ∈ l, ∀ v, emb p.1 = some v → v.length = d) :
    ∀ r ∈ l.foldl (embedStep emb) m, r.length = d := by
  induction l generalizing m with
  | nil => exact hm
  | cons p l ih =>
      rw [List.foldl_cons]
      exact ih (embedStep emb m p)
        (embedStep_rows emb m p d hm (hl p (List.mem_cons_self _ _)))
        (fun q hq => hl q (List.mem_cons_of_mem _ hq))

/-- One loop iteration leaves row `i` untouched when the iteration's token
either has a different index or has no pretrained vector. -/
lemma embedStep_preserves_row (emb : String → Option (List ℚ))
    (m : List (List ℚ)) (p : String × Nat) (i : Nat)
    (h : p.2 = i → emb p.1 = none) :
    (embedStep emb m p).getD i [] = m.getD i [] := by
  unfold embedStep
  split
  · cases hv : emb p.1 with
    | none => rfl
    | some v =>
        have hne : p.2 ≠ i := fun he => by rw [h he] at hv; cases hv
        simp [List.getD, List.getElem?_set_ne hne]
  · rfl

/-- The whole loop leaves row `i` untouched when no entry with index `i`
has a pretrained vector. -/
lemma foldl_embedStep_preserves_row (emb : String → Option (List ℚ))
    (l : List (String × Nat)) (m : List (List ℚ)) (i : Nat)
    (h : ∀ p ∈ l, p.2 = i → emb p.1 = none) :
    (l.foldl (embedStep emb) m).getD i [] = m.getD i [] := by
  induction l generalizing m with
  | nil => rfl
  | cons p l ih =>
      rw [List.foldl_cons, ih _ (fun q hq => h q (List.mem_cons_of_mem _ hq)),
        embedStep_preserves_row emb m p i (h p (List.mem_cons_self _ _))]

/-- Row `i` of the all-zero initial matrix is the zero row, for `i` in range. -/
lemma zero_matrix_getD (i : Nat) (h : i < max_words) :
    (List.replicate max_words (List.replicate embedding_dim (0 : ℚ))).getD i []
      = List.replicate embedding_dim 0 := by
  simp [List.getD, List.getElem?_replicate, h]

/-- Claim C3: for every vocabulary mapping (indices pairwise distinct, as the
tokenizer guarantees) and every embeddings index whose vectors all have width
`embedding_dim`, the embedding matrix has shape (max_words, embedding_dim),
and every in-range vocabulary index whose token has no pretrained vector
keeps an exactly-zero row. -/
theorem embedding_matrix_shape_and_zero_rows (wi : List (String × Nat))
    (emb : String → Option (List ℚ))
    (hv : ∀ w v, emb w = some v → v.length = embedding_dim)
    (hnodup : (wi.map Prod.snd).Nodup) :
    (buildEmbeddingMatrix wi emb).length = max_words ∧
    (∀ row ∈ buildEmbeddingMatrix wi emb, row.length = embedding_dim) ∧
    (∀ w i, (w, i) ∈ wi → i < max_words → emb w = none →
      (buildEmbeddingMatrix wi emb).getD i []
        = List.replicate embedding_dim 0) := by
  refine ⟨?_, ?_, ?_⟩
  · unfold buildEmbeddingMatrix
    rw [foldl_embedStep_length]
    simp
  · unfold buildEmbeddingMatrix
    exact foldl_embedStep_rows emb wi _ embedding_dim
      (fun r hr => (List.eq_of_mem_replicate hr) ▸ List.length_replicate _ _)
      (fun p _ v hvv => hv p.1 v hvv)
  · intro w i hmem hlt hnone
    unfold buildEmbeddingMatrix
    have h : ∀ p ∈ wi, p.2 = i → emb p.1 = none := by
      intro p hp hpi
      have hpe : p = (w, i) :=
        List.inj_on_of_nodup_map hnodup hp hmem (by simpa using hpi)
      rw [hpe]
      exact hnone
    rw [foldl_embedStep_preserves_row emb wi _ i h]
    exact zero_matrix_getD i hlt

/-- Witness for C3: a one-token vocabulary whose token has no vector keeps a
zero row at its index. -/
theorem embedding_matrix_zero_rows_witness :
    (buildEmbeddingMatrix [("cat", 1)] (fun _ => none)).getD 1 []
      = List.replicate embedding_dim 0 :=
  (embedding_matrix_shape_and_zero_rows [("cat", 1)] (fun _ => none)
      (fun _ v h => nomatch h) (by simp)).2.2 "cat" 1 (by simp) (by decide) rfl

/-- Claim C9: when every vocabulary index is at least 1 (the tokenizer
reserves index 0 for padding), row 0 of the embedding matrix is exactly zero,
so the padding index always maps to the zero vector. -/
theorem padding_row_is_zero (wi : List (String × Nat))
    (emb : String → Option (List ℚ))
    (h1 : ∀ p ∈ wi, 1 ≤ p.2) :
    (buildEmbeddingMatrix wi emb).getD 0 [] = List.replicate embedding_dim 0 := by
  unfold buildEmbeddingMatrix
  have h : ∀ p ∈ wi, p.2 = 0 → emb p.1 = none := by
    intro p hp hp0
    have := h1 p hp
    omega
  rw [foldl_embedStep_preserves_row emb wi _ 0 h]
  exact zero_matrix_getD 0 (by decide)

/-- Witness for C9: a one-token vocabulary at index 2, with a pretrained
vector present, still keeps row 0 zero. -/
theorem padding_row_is_zero_witness :
    (buildEmbeddingMatrix [("dog", 2)]
        (fun _ => some (List.replicate embedding_dim 1))).getD 0 []
      = List.replicate embedding_dim 0 :=
  padding_row_is_zero [("dog", 2)]
    (fun _ => some (List.replicate embedding_dim 1)) (by simp)

/-- Gathering a list at every index of `range` reproduces the list. -/
lemma filterMap_getElem_range (l : List α) :
    (List.range l.length).filterMap (fun i => l[i]?) = l := by
  induction l with
  | nil => rfl
  | cons a l ih =>
      rw [List.length_cons, List.range_succ_eq_map, List.filterMap_cons]
      simp only [List.getElem?_cons_zero, List.filterMap_map]
      have hc : ((fun i => (a :: l)[i]?) ∘ Nat.succ) = fun i => l[i]? := by
        funext i
        simp
      rw [hc, ih]

/-- Gathering the zip of two lists along in-range indices equals the zip of
the two gathers: the permutation is applied to features and labels in
lockstep. -/
lemma applyPerm_zip (p : List Nat) (a : List α) (b : List β)
    (hb : ∀ i ∈ p, i < a.length ∧ i < b.length) :
    applyPerm p (a.zip b) = (applyPerm p a).zip (applyPerm p b) := by
  induction p with
  | nil => rfl
  | cons i p ih =>
      obtain ⟨hia, hib⟩ := hb i (List.mem_cons_self _ _)
      have hzip : (a.zip b)[i]? = some (a[i], b[i]) := by
        rw [List.getElem?_zip_eq_some]
        exact ⟨List.getElem?_eq_getElem hia, List.getElem?_eq_getElem hib⟩
      simp only [applyPerm, List.filterMap_cons, hzip,
        List.getElem?_eq_getElem hia, List.getElem?_eq_getElem hib]
      rw [List.zip_cons_cons]
      have := ih (fun j hj => hb j (List.mem_cons_of_mem _ hj))
      simp only [applyPerm] at this
      rw [this]

/-- Claim C6: when the index list is a permutation of `range n` and features
and labels both have length `n`, applying it to both arrays in lockstep
preserves the multiset of (feature, label) pairs: no feature is ever paired
with a different record's label. -/
theorem shuffle_preserves_pairs (p : List Nat) (data : List α) (labels : List β)
    (hp : p.Perm (List.range data.length))
    (hlen : labels.length = data.length) :
    ((applyPerm p data).zip (applyPerm p labels)).Perm (data.zip labels) := by
  have hb : ∀ i ∈ p, i < data.length ∧ i < labels.length := by
    intro i hi
    have hr : i ∈ List.range data.length := hp.mem_iff.mp hi
    have hlt := List.mem_range.mp hr
    exact ⟨hlt, by omega⟩
  rw [← applyPerm_zip p data labels hb]
  have hzl : (data.zip labels).length = data.length := by
    rw [List.length_zip]
    omega
  have h2 : (applyPerm p (data.zip labels)).Perm
      (applyPerm (List.range data.length) (data.zip labels)) :=
    List.Perm.filterMap _ hp
  have h3 : applyPerm (List.range data.length) (data.zip labels)
      = data.zip labels := by
    unfold applyPerm
    rw [← hzl]
    exact filterMap_getElem_range _
  rw [h3] at h2
  exact h2

/-- Witness for C6 on a concrete three-record dataset and the permutation
[2, 0, 1]. -/
theorem shuffle_preserves_pairs_witness :
    ((applyPerm [2, 0, 1] [10, 20, 30]).zip
        (applyPerm [2, 0, 1] [5, 6, 7])).Perm
      ([10, 20, 30].zip [5, 6, 7]) :=
  shuffle_preserves_pairs [2, 0, 1] [10, 20, 30] [5, 6, 7]
    (by decide) (by decide)
